import Mathlib

/-!
Verification of the rust-pentago game core (src/main.rs) against its
natural-language specification.

The embedding below follows the source of `src/main.rs`:
* `Player`, `GameState`, `GameState.new` mirror the Rust declarations;
  `selected_cell` keeps only the `Option<usize>` selection held by the
  `TableState` (the only part of it the program reads or writes).
* `movement` is the `match key.code` table of `run_app`.
* The cursor update
  `((state.selected_cell.selected().unwrap() as i32 + movement) % 49) as usize`
  is embedded bit-precisely: `usize_as_i32` truncates a 64-bit unsigned
  value to two's-complement 32 bits, `wrap32` is wrapping `i32` addition
  (release-mode semantics), `Int.tmod` is Rust's truncating `%`, and
  `i32_as_usize` is the sign-extending cast back to `usize`.
* `step` is one key-event dispatch of the loop body, `runKeys` iterates it
  over a list of key events.

The board, `place`, and the turn/phase machine of the specification have no
counterpart in `src/`; they are modelled from the spec's own words in the
definitions marked `Modelled from the spec:` further below.
-/

inductive Player where
  | One
  | Two
  deriving DecidableEq, Repr

structure GameState where
  active_player : Player
  selected_cell : Option Nat
  can_place : Bool
  can_turn : Bool
  deriving DecidableEq, Repr

def GameState.new : GameState :=
  { active_player := Player.One
    selected_cell := none
    can_place := true
    can_turn := true }

/-- The state at the top of `run_app`'s loop: `GameState::new()` followed by
`state.selected_cell.select(Some(0))`. -/
def initState : GameState :=
  { GameState.new with selected_cell := some 0 }

/-- The movement table of `run_app`: keys w, a, s, d map to -7, -1, 1, 7; every
other (non-'q') key leaves a movement of 0.  The 'q' arm returns from the
function and is handled in `step`. -/
def movement (c : Char) : Int :=
  if c = 'w' then -7
  else if c = 'a' then -1
  else if c = 's' then 1
  else if c = 'd' then 7
  else 0

/-- The Rust cast `x as i32` for `x : usize` (64-bit): truncate to the low
32 bits and reinterpret as two's complement. -/
def usize_as_i32 (x : Nat) : Int :=
  let l : Nat := x % 2 ^ 32
  if l < 2 ^ 31 then (l : Int) else (l : Int) - 2 ^ 32

/-- The Rust cast `z as usize` for `z : i32`: sign-extend to 64 bits and
reinterpret as unsigned, i.e. reduce modulo `2^64`. -/
def i32_as_usize (z : Int) : Nat :=
  (z % 2 ^ 64).toNat

/-- Wrapping `i32` addition result (the release-mode semantics of `+`). -/
def wrap32 (z : Int) : Int :=
  (z + 2 ^ 31) % 2 ^ 32 - 2 ^ 31

/-- The cursor update of `run_app`:
`((selected.unwrap() as i32 + movement) % 49) as usize`.
Rust's `%` is the truncating remainder `Int.tmod`. -/
def moveSelected (sel : Nat) (m : Int) : Nat :=
  i32_as_usize (Int.tmod (wrap32 (usize_as_i32 sel + m)) 49)

/-- Result of processing one key event in `run_app`'s loop body. -/
inductive StepResult where
  | quit
  | next (s : GameState)
  | panicked
  deriving DecidableEq, Repr

/-- One iteration of `run_app`'s key handler: 'q' returns `Ok(())`; any
other key computes a movement and re-selects
`Some(((selected().unwrap() as i32 + movement) % 49) as usize)`.
`selected().unwrap()` panics when no cell is selected. -/
def step (s : GameState) (c : Char) : StepResult :=
  if c = 'q' then StepResult.quit
  else
    match s.selected_cell with
    | none => StepResult.panicked
    | some v =>
        StepResult.next
          { s with selected_cell := some (moveSelected v (movement c)) }

/-- Outcome of running `run_app`'s loop over a finite list of key events. -/
inductive RunOutcome where
  | ok (final : GameState)
  | pending (s : GameState)
  | panicked
  deriving DecidableEq, Repr

def runKeys (s : GameState) : List Char → RunOutcome
  | [] => RunOutcome.pending s
  | c :: cs =>
      match step s c with
      | StepResult.quit => RunOutcome.ok s
      | StepResult.next s2 => runKeys s2 cs
      | StepResult.panicked => RunOutcome.panicked

/-- Whether the run hit the `unwrap` panic. -/
def RunOutcome.panicky : RunOutcome → Bool
  | RunOutcome.panicked => true
  | _ => false

/-- The game state carried by a non-panicking outcome. -/
def RunOutcome.state : RunOutcome → Option GameState
  | RunOutcome.ok s => some s
  | RunOutcome.pending s => some s
  | RunOutcome.panicked => none

/-!
### Spec-modelled part

The board, `place`, and the turn/phase state machine appear only in the
specification; `src/main.rs` contains no counterpart.  The definitions below
are modelled from the spec's words (sections 3, 4.1, 4.2, 7).
-/

/-- Modelled from the spec: the occupant of a cell, `Empty | Occupied(Player)`
(section 3); the board itself is absent from `src/`. -/
inductive Cell where
  | Empty
  | Occupied (p : Player)
  deriving DecidableEq, Repr

/-- Modelled from the spec: `is_divider(index)` is true iff `index / 7 == 3`
or `index % 7 == 3` (section 4.1); absent from `src/`. -/
def is_divider (i : Nat) : Bool :=
  i / 7 = 3 || i % 7 = 3

/-- Modelled from the spec: the placement error kinds of section 7; absent
from `src/`. -/
inductive PlacementError where
  | DividerCell
  | CellOccupied
  deriving DecidableEq, Repr

/-- Modelled from the spec: the turn phases of section 4.2; absent from
`src/`. -/
inductive TurnPhase where
  | AwaitingPlacement
  | AwaitingTurnAction
  deriving DecidableEq, Repr

/-- Modelled from the spec: the aggregate game state of section 3
(`{board, cursor, active_player, phase}`); the board and phase are absent
from `src/`. -/
structure SpecGameState where
  board : Nat → Cell
  cursor : Nat
  active_player : Player
  phase : TurnPhase

/-- Modelled from the spec: the derived flag
`can_place = (phase == AwaitingPlacement)` (section 4.2). -/
def SpecGameState.canPlace (s : SpecGameState) : Bool :=
  decide (s.phase = TurnPhase.AwaitingPlacement)

/-- Modelled from the spec: the derived flag
`can_turn = (phase == AwaitingTurnAction)` (section 4.2). -/
def SpecGameState.canTurn (s : SpecGameState) : Bool :=
  decide (s.phase = TurnPhase.AwaitingTurnAction)

/-- Modelled from the spec: `place(index, player)` of section 4.1 — fails
with `DividerCell` if `is_divider(index)`, fails with `CellOccupied` if the
occupant is not `Empty`, otherwise sets the occupant; absent from `src/`. -/
def place (b : Nat → Cell) (i : Nat) (p : Player) :
    Except PlacementError (Nat → Cell) :=
  if is_divider i then Except.error PlacementError.DividerCell
  else
    match b i with
    | Cell.Occupied _ => Except.error PlacementError.CellOccupied
    | Cell.Empty => Except.ok fun j => if j = i then Cell.Occupied p else b j

/-- Modelled from the spec: placing at an index as a state transition —
errors are reported as a result value and leave the whole state unchanged
(sections 4.2 and 7). -/
def placeAt (s : SpecGameState) (i : Nat) (p : Player) :
    SpecGameState × Option PlacementError :=
  match place s.board i p with
  | Except.error e => (s, some e)
  | Except.ok b2 => ({ s with board := b2 }, none)

/-- Modelled from the spec: the other player. -/
def Player.toggle : Player → Player
  | Player.One => Player.Two
  | Player.Two => Player.One

/-- Modelled from the spec: the `ActivateCell` transitions of section 4.2.
While `AwaitingPlacement`, a successful `place` at the cursor advances to
`AwaitingTurnAction` and a failure leaves the state unchanged; while
`AwaitingTurnAction`, the turn-action (whose rule the spec leaves
unspecified) completes, the phase returns to `AwaitingPlacement` and the
active player toggles.  Absent from `src/`. -/
def activateCell (s : SpecGameState) : SpecGameState × Option PlacementError :=
  match s.phase with
  | TurnPhase.AwaitingPlacement =>
      match place s.board s.cursor s.active_player with
      | Except.error e => (s, some e)
      | Except.ok b2 =>
          ({ s with board := b2, phase := TurnPhase.AwaitingTurnAction }, none)
  | TurnPhase.AwaitingTurnAction =>
      ({ s with
          phase := TurnPhase.AwaitingPlacement
          active_player := s.active_player.toggle }, none)

/-- Modelled from the spec: the all-empty board of the initial state. -/
def emptyBoard : Nat → Cell := fun _ => Cell.Empty

/-- Modelled from the spec: the initial aggregate state of section 3 —
`active_player=One`, `phase=AwaitingPlacement`, cursor at index 0, all
cells empty. -/
def specInit : SpecGameState :=
  { board := emptyBoard
    cursor := 0
    active_player := Player.One
    phase := TurnPhase.AwaitingPlacement }

/-- A state in the turn-action phase, used to exercise the second
`ActivateCell` transition. -/
def specTurn : SpecGameState :=
  { specInit with phase := TurnPhase.AwaitingTurnAction }

/-- The invariant run_app maintains at the top of every loop iteration:
a cell is selected, and the three fields the key handler never writes
still hold their `GameState::new` values. -/
def LoopInv (s : GameState) : Prop :=
  s.selected_cell.isSome = true ∧ s.active_player = Player.One ∧
    s.can_place = true ∧ s.can_turn = true

theorem runKeys_inv (ks : List Char) : ∀ s : GameState, LoopInv s →
    (runKeys s ks).panicky = false ∧
      ∀ s2, (runKeys s ks).state = some s2 → LoopInv s2 := by
  induction ks with
  | nil =>
      intro s hs
      refine ⟨rfl, fun s2 h => ?_⟩
      simp only [runKeys, RunOutcome.state, Option.some.injEq] at h
      exact h ▸ hs
  | cons c cs ih =>
      intro s hs
      obtain ⟨hsel, hap, hcp, hct⟩ := hs
      by_cases hq : c = 'q'
      · subst hq
        refine ⟨?_, fun s2 h => ?_⟩
        · simp [runKeys, step, RunOutcome.panicky]
        · simp only [runKeys, step, if_pos, RunOutcome.state,
            Option.some.injEq] at h
          exact h ▸ ⟨hsel, hap, hcp, hct⟩
      · obtain ⟨v, hv⟩ := Option.isSome_iff_exists.mp hsel
        have hstep : step s c = StepResult.next
            { s with selected_cell := some (moveSelected v (movement c)) } := by
          simp [step, hq, hv]
        have hrun : runKeys s (c :: cs) =
            runKeys { s with selected_cell := some (moveSelected v (movement c)) } cs := by
          simp [runKeys, hstep]
        rw [hrun]
        exact ih _ ⟨rfl, hap, hcp, hct⟩

/-!
### Claims
-/

/-- C1.  The claim says cursor movement always lands back in `[0,49)` via a
non-negative modulo.  The source instead computes Rust's truncating `%` and
casts the possibly-negative remainder to `usize`: at cursor 0, the key 'w'
(offset -7) yields `2^64 - 7`, far outside `[0,49)`. -/
theorem c1_wrap_out_of_range :
    moveSelected 0 (movement 'w') = 18446744073709551609 ∧
      49 ≤ moveSelected 0 (movement 'w') := by
  decide

/-- C2, counterexample.  The claim maps Down to 's' with delta +7 and Right
to 'd' with delta +1; in the source 's' yields +1 and 'd' yields +7, so the
claimed delta assignment is false. -/
theorem c2_claimed_deltas_false :
    decide (movement 's' = 7 ∧ movement 'd' = 1) = false := by
  decide

/-- C2, amended.  The movement deltas of `run_app` are: 'w' adjusts by -7,
'a' adjusts by -1, 's' adjusts by +1, 'd' adjusts by +7 — relative to the
claimed WASD directions, the deltas of 's' and 'd' are swapped. -/
theorem c2_deltas :
    movement 'w' = -7 ∧ movement 'a' = -1 ∧
      movement 's' = 1 ∧ movement 'd' = 7 := by
  decide

/-- C3, counterexample.  The claim says the initial state has
`can_turn = false`; `GameState::new` literally stores `can_turn: true`. -/
theorem c3_can_turn_not_false :
    decide (initState.can_turn = false) = false := by
  decide

/-- C3, amended.  The initial state of `run_app` has active player One,
the cursor selection `Some(0)`, `can_place = true` and `can_turn = true`
(both flags are stored literally as `true`; no phase field exists in the
source). -/
theorem c3_initial_state :
    initState.active_player = Player.One ∧
      initState.selected_cell = some 0 ∧
      initState.can_place = true ∧ initState.can_turn = true := by
  decide

/-- C4.  The claim says movement is invertible on `[0,49)`.  On the source
arithmetic it is not: from index 42, moving by +7 ('d') wraps to 0, and
moving back by -7 ('w') lands at `2^64 - 7`, not 42. -/
theorem c4_roundtrip_fails :
    moveSelected 42 (movement 'd') = 0 ∧
      moveSelected (moveSelected 42 (movement 'd')) (movement 'w') =
        18446744073709551609 := by
  decide

/-- C5.  Processing a movement key changes only the selected cell: the
active player and the stored `can_place` / `can_turn` flags are unchanged. -/
theorem c5_moveCursor_frame (s : GameState) (v : Nat) (c : Char)
    (hd : c = 'w' ∨ c = 'a' ∨ c = 's' ∨ c = 'd')
    (hs : s.selected_cell = some v) :
    ∃ s2, step s c = StepResult.next s2 ∧
      s2.active_player = s.active_player ∧
      s2.can_place = s.can_place ∧
      s2.can_turn = s.can_turn ∧
      s2.selected_cell = some (moveSelected v (movement c)) := by
  have hq : ¬ c = 'q' := by
    rcases hd with h | h | h | h <;> subst h <;> decide
  refine ⟨{ s with selected_cell := some (moveSelected v (movement c)) },
    ?_, rfl, rfl, rfl, rfl⟩
  simp [step, hq, hs]

/-- C5, witness at the initial state and key 'w'. -/
theorem c5_moveCursor_frame_witness :
    ∃ s2, step initState 'w' = StepResult.next s2 ∧
      s2.active_player = initState.active_player ∧
      s2.can_place = initState.can_place ∧
      s2.can_turn = initState.can_turn ∧
      s2.selected_cell = some (moveSelected 0 (movement 'w')) :=
  c5_moveCursor_frame initState 0 'w' (Or.inl rfl) rfl

/-- C6.  `place` fails with `DividerCell` on divider cells and with
`CellOccupied` on occupied cells; otherwise it sets the occupant.  On every
failure the error is a result value and the whole state is unchanged. -/
theorem c6_place_spec (s : SpecGameState) (i : Nat) (p : Player) :
    (is_divider i = true →
      placeAt s i p = (s, some PlacementError.DividerCell)) ∧
    (∀ q, is_divider i = false → s.board i = Cell.Occupied q →
      placeAt s i p = (s, some PlacementError.CellOccupied)) ∧
    (is_divider i = false → s.board i = Cell.Empty →
      placeAt s i p =
        ({ s with board := fun j => if j = i then Cell.Occupied p else s.board j },
          none)) := by
  refine ⟨fun h => ?_, fun q h1 h2 => ?_, fun h1 h2 => ?_⟩
  · simp [placeAt, place, h]
  · simp [placeAt, place, h1, h2]
  · simp [placeAt, place, h1, h2]

/-- C6, witness: on the empty board, placing at divider index 3 fails with
`DividerCell` and leaves the state unchanged. -/
theorem c6_place_spec_witness :
    placeAt specInit 3 Player.One = (specInit, some PlacementError.DividerCell) :=
  (c6_place_spec specInit 3 Player.One).1 rfl

/-- C7.  A successful placement leaves `can_place` false and `can_turn`
true; a successful turn-action toggles the active player and makes
`can_place` true again. -/
theorem c7_phase_flags (s : SpecGameState) :
    (∀ s2, s.phase = TurnPhase.AwaitingPlacement →
      activateCell s = (s2, none) →
      s2.canPlace = false ∧ s2.canTurn = true) ∧
    (∀ s2, s.phase = TurnPhase.AwaitingTurnAction →
      activateCell s = (s2, none) →
      s2.active_player = s.active_player.toggle ∧ s2.canPlace = true) := by
  constructor
  · intro s2 hp h
    rw [activateCell] at h
    rw [hp] at h
    cases hpl : place s.board s.cursor s.active_player with
    | error e =>
        rw [hpl] at h
        simp at h
    | ok b2 =>
        rw [hpl] at h
        obtain ⟨h1, -⟩ := Prod.mk.injEq .. ▸ h
        subst h1
        constructor <;> rfl
  · intro s2 hp h
    rw [activateCell] at h
    rw [hp] at h
    obtain ⟨h1, -⟩ := Prod.mk.injEq .. ▸ h
    subst h1
    constructor <;> rfl

/-- C7, witness: a successful placement at cursor 0 from the initial state,
and a successful turn-action from the turn-action phase. -/
theorem c7_phase_flags_witness :
    ((activateCell specInit).1.canPlace = false ∧
      (activateCell specInit).1.canTurn = true) ∧
    ((activateCell specTurn).1.active_player = specTurn.active_player.toggle ∧
      (activateCell specTurn).1.canPlace = true) :=
  ⟨(c7_phase_flags specInit).1 (activateCell specInit).1 rfl rfl,
   (c7_phase_flags specTurn).2 (activateCell specTurn).1 rfl rfl⟩

/-- C8.  The 'q' key is handled before anything else in every state: the
loop ends, the run returns `Ok(())`, and the state at quit is the state
unchanged. -/
theorem c8_quit (s : GameState) (cs : List Char) :
    step s 'q' = StepResult.quit ∧
      runKeys s ('q' :: cs) = RunOutcome.ok s :=
  ⟨rfl, rfl⟩

/-- C9.  From `run_app`'s initial state (which selects `Some(0)`), every
key event re-selects `Some` of a value, so the selection is `Some` at the
top of every iteration and `selected().unwrap()` never panics. -/
theorem c9_no_unwrap_panic (ks : List Char) :
    (runKeys initState ks).panicky = false :=
  (runKeys_inv ks initState ⟨rfl, rfl, rfl, rfl⟩).1

/-- C10.  No key handler writes `active_player`, `can_place` or `can_turn`:
after any sequence of key events from the initial state, the three fields
still hold their `GameState::new` values One, true, true. -/
theorem c10_fields_constant (ks : List Char) (s2 : GameState)
    (h : (runKeys initState ks).state = some s2) :
    s2.active_player = Player.One ∧
      s2.can_place = true ∧ s2.can_turn = true :=
  ((runKeys_inv ks initState ⟨rfl, rfl, rfl, rfl⟩).2 s2 h).2

/-- C10, witness at the key sequence consisting of the single key 'q'. -/
theorem c10_fields_constant_witness :
    initState.active_player = Player.One ∧
      initState.can_place = true ∧ initState.can_turn = true :=
  c10_fields_constant ['q'] initState rfl
